import Mathlib

/-!
# Verification of the pika.com article dedup/selection engine

Shallow embedding of the duplicate-detection, provider-priority ranking and
selection code of the repository, together with theorems settling the claims
about it.

Embedding conventions:
* JS strings are Lean `String`s (titles here are ASCII/Latin, where JS UTF-16
  length and Lean codepoint length agree).
* JS numbers occurring in the similarity computation are embedded as exact
  rationals `ℚ` (all values involved are small dyadic/decimal fractions).
* `new Date(s).getTime()` is external to the repository (a JS builtin), so the
  date parser is passed to every function that needs it as an explicit
  parameter `ts : String → Int`.
* The module-level memoization caches (`providerScoreCache`, `dateCache`,
  `titleCache`) are pure memoization of pure functions and are not modelled.
* A JS falsy check `!article.title` on a `string`-typed field is `title = ""`.
* `Record<string, number>` literals are embedded as `String → Option Nat`
  lookups over the literal keys (the JS prototype chain is not modelled); the
  JS `||`-default idiom is `jsOrNat`.
-/

-- Rational arithmetic must evaluate inside `decide`-style proofs below;
-- core marks these four operations `@[irreducible]`, which only affects
-- elaboration-time reduction, never kernel soundness.
attribute [local semireducible] Rat.add Rat.mul Rat.inv Rat.sub

/-- `Article` read-model, from `daily-articles/types/index.ts`. -/
structure Article where
  title : String
  url : String
  publication_source : String
  created_at : String
deriving DecidableEq, Repr

/-- Length of the common prefix of two character lists. -/
def commonPrefixLen : List Char → List Char → Nat
  | c :: cs, d :: ds => if c = d then commonPrefixLen cs ds + 1 else 0
  | _, _ => 0

/-- The matching pass of the Jaro-Winkler computation, as a fold over
`i = 0, …, s1.length - 1` of the JS outer loop. State: the match count `m`
and the two match-flag lists. The inner `j`-loop (from `low` to `high`,
`break` on the first hit) is the `find?` over that ascending index range. -/
def jwMatchStep (s1 s2 : List Char) (range : Int)
    (st : Nat × List Bool × List Bool) (i : Nat) : Nat × List Bool × List Bool :=
  let low : Nat := if (i : Int) ≥ range then ((i : Int) - range).toNat else 0
  let high : Int :=
    if (i : Int) + range ≤ (s2.length : Int) - 1 then (i : Int) + range
    else (s2.length : Int) - 1
  match (List.range' low (high + 1 - (low : Int)).toNat).find?
      (fun j => !st.2.1.getD i false && !st.2.2.getD j false
        && (s1.getD i ' ' == s2.getD j ' ')) with
  | some j => (st.1 + 1, st.2.1.set i true, st.2.2.set j true)
  | none => st

/-- The transposition pass of the Jaro-Winkler computation, as a fold over
`i` of the JS loop. State: the cursor `k` into `s2` and the transposition
count. The inner search for the next matched `j ≥ k` (`break` on hit) is the
`find?`; the `none` fallback mirrors JS reading `s2[s2.length] = undefined`
(unreachable in fact, since both sides hold the same number of matches). -/
def jwTransStep (s1 s2 : List Char) (s1Matches s2Matches : List Bool)
    (st : Nat × Nat) (i : Nat) : Nat × Nat :=
  if s1Matches.getD i false then
    match (List.range' st.1 (s2.length - st.1)).find?
        (fun j => s2Matches.getD j false) with
    | some j =>
      (j + 1, if s1.getD i ' ' ≠ s2.getD j ' ' then st.2 + 1 else st.2)
    | none => (st.1, st.2 + 1)
  else st

/-- The Jaro-Winkler similarity, embedded from the npm `jaro-winkler` package
that `duplicate-filter.ts` imports (called there as `distance(s1, s2)`, i.e.
with the default case-sensitive settings). Exact rational arithmetic replaces
JS floating point; the imperative loops are the folds above. The JS prefix
loop `while (s1[l] === s2[l] && l < 4) ++l` is `min (commonPrefixLen ..) 4`:
the two strings are unequal on this path, so the `undefined === undefined`
continuation is unreachable. -/
def jaroWinkler (str1 str2 : String) : ℚ :=
  let s1 := str1.toList
  let s2 := str2.toList
  -- Exit early if either are empty strings.
  if s1.length = 0 ∨ s2.length = 0 then 0
  -- Exit early if they are an exact match.
  else if s1 = s2 then 1
  else
    let range : Int := (Int.ofNat (max s1.length s2.length)) / 2 - 1
    let ms := (List.range s1.length).foldl (jwMatchStep s1 s2 range)
      (0, List.replicate s1.length false, List.replicate s2.length false)
    let m := ms.1
    -- Exit early if no matches were found.
    if m = 0 then 0
    else
      let numTrans := ((List.range s1.length).foldl
        (jwTransStep s1 s2 ms.2.1 ms.2.2) (0, 0)).2
      let weight : ℚ :=
        ((m : ℚ) / s1.length + (m : ℚ) / s2.length
          + ((m : ℚ) - (numTrans : ℚ) / 2) / (m : ℚ)) / 3
      if weight > 7/10 then
        let l : Nat := min (commonPrefixLen s1 s2) 4
        weight + (l : ℚ) * (1/10) * (1 - weight)
      else weight

/-- JS `String.prototype.toLowerCase` (character-wise lowercasing; the titles
handled here are Latin-script, where this agrees with JS). -/
def jsToLowerCase (s : String) : String :=
  String.mk (s.toList.map Char.toLower)

/-- JS `String.prototype.trim`: strip leading and trailing whitespace. -/
def jsTrim (s : String) : String :=
  String.mk (((s.toList.dropWhile Char.isWhitespace).reverse.dropWhile
    Char.isWhitespace).reverse)

/-- Title normalization (`getNormalizedTitle`, cache dropped):
`title.toLowerCase().trim()`. -/
def getNormalizedTitle (title : String) : String :=
  jsTrim (jsToLowerCase title)

/-- Early exit check for obvious non-duplicates (`isObviouslyDifferent`):
length difference more than 50% of the average length. -/
def isObviouslyDifferent (title1 title2 : String) : Bool :=
  let lengthDiff : ℚ := |(title1.length : ℚ) - (title2.length : ℚ)|
  let avgLength : ℚ := ((title1.length : ℚ) + (title2.length : ℚ)) / 2
  decide (lengthDiff > avgLength * (1/2))

/-- The combined per-pair duplicate test of the `filterDuplicateArticles`
inner loop: the cheap length pre-filter, then the full metric against the
threshold. (Both the `isObviouslyDifferent` branch and a below-threshold
similarity `continue` to the next stored title.) -/
def similarTitles (currentTitle existingTitle : String) (threshold : ℚ) : Bool :=
  !isObviouslyDifferent currentTitle existingTitle
    && decide (jaroWinkler currentTitle existingTitle ≥ threshold)

/-- JS `x || d` for a possibly-undefined number `x`: `undefined` and `0` are
falsy. -/
def jsOrNat (x : Option Nat) (d : Nat) : Nat :=
  match x with
  | some v => if v = 0 then d else v
  | none => d

/-- `PROVIDER_RANKINGS` of `daily-articles/services/duplicate-filter.ts`
(higher number = higher priority). -/
def PROVIDER_RANKINGS (p : String) : Option Nat :=
  if p = "Telegrafi" then some 6
  else if p = "Insajderi" then some 5
  else if p = "indeksonline" then some 4
  else if p = "gazeta-express" then some 3
  else if p = "botasot" then some 2
  else if p = "gazeta-blic" then some 1
  else if p = "default" then some 6
  else none

/-- `getProviderScore` of `daily-articles/services/duplicate-filter.ts`
(cache dropped): exact match first, then the lowercased provider,
`|| PROVIDER_RANKINGS['default']`. -/
def getProviderScore (provider : String) : Nat :=
  match PROVIDER_RANKINGS provider with
  | some score => score
  | none => jsOrNat (PROVIDER_RANKINGS (jsToLowerCase provider))
      ((PROVIDER_RANKINGS "default").getD 0)

/-- `selectBetterArticle` of `daily-articles/services/duplicate-filter.ts`:
higher-ranked provider wins; on equal ranking the more recent
(`ts`-parsed `created_at`) wins, the existing one on a timestamp tie. -/
def selectBetterArticle (ts : String → Int) (current existing : Article) : Article :=
  let currentScore := getProviderScore current.publication_source
  let existingScore := getProviderScore existing.publication_source
  if currentScore ≠ existingScore then
    if currentScore > existingScore then current else existing
  else
    if ts current.created_at > ts existing.created_at then current else existing

/-- One article's scan over the accumulated `(uniqueArticles, processedTitles)`
pairs (the indexed inner loop of `filterDuplicateArticles`): `none` means no
duplicate was found; `some acc'` is the updated accumulator after the first
match (replace the stored entry if the new article wins, else keep it), with
the loop `break`ing there. JS compares `betterArticle === article` by
reference; since `selectBetterArticle` returns one of its two arguments this
is the structural test below (observably identical when the two are equal). -/
def scanForDup (ts : String → Int) (threshold : ℚ) (article : Article)
    (currentTitle : String) : List (Article × String) → Option (List (Article × String))
  | [] => none
  | (a, aTitle) :: rest =>
    if similarTitles currentTitle aTitle threshold then
      some (if selectBetterArticle ts article a = article then
              (article, currentTitle) :: rest
            else
              (a, aTitle) :: rest)
    else
      (scanForDup ts threshold article currentTitle rest).map
        (fun acc => (a, aTitle) :: acc)

/-- Processing of one input article by `filterDuplicateArticles`: skip it when
malformed (falsy title, provider or timestamp), otherwise scan the
accumulated entries and either merge or append. -/
def dedupeStep (ts : String → Int) (threshold : ℚ)
    (acc : List (Article × String)) (article : Article) : List (Article × String) :=
  if article.title = "" ∨ article.publication_source = "" ∨ article.created_at = "" then
    acc
  else
    match scanForDup ts threshold article (getNormalizedTitle article.title) acc with
    | some acc' => acc'
    | none => acc ++ [(article, getNormalizedTitle article.title)]

/-- `filterDuplicateArticles` of `daily-articles/services/duplicate-filter.ts`.
Empty and single-element lists return before the threshold validation; the
out-of-range threshold is the thrown `Error`, embedded as `Except.error`.
(The `!articles` null-guard has no counterpart: Lean lists cannot be null.) -/
def filterDuplicateArticles (ts : String → Int) (articles : List Article)
    (similarityThreshold : ℚ) : Except String (List Article) :=
  if articles.length = 0 then Except.ok []
  else if articles.length = 1 then Except.ok articles
  else if similarityThreshold < 0 ∨ similarityThreshold > 1 then
    Except.error "Similarity threshold must be between 0 and 1"
  else
    Except.ok ((articles.foldl (dedupeStep ts similarityThreshold) []).map Prod.fst)

/-- Well-formedness of an article row as checked inside the dedup loop:
title, provider and creation timestamp all present (non-empty). -/
def WellFormed (a : Article) : Prop :=
  a.title ≠ "" ∧ a.publication_source ≠ "" ∧ a.created_at ≠ ""

instance : DecidablePred WellFormed := fun a => by
  unfold WellFormed; infer_instance

namespace AllArticles

/-- `PROVIDER_RANKINGS` of `all-articles/services/duplicate-filter.ts` —
note the different table: `default` is 1, the lowest value. -/
def PROVIDER_RANKINGS (p : String) : Option Nat :=
  if p = "telegrafi" then some 5
  else if p = "gazeta-express" then some 4
  else if p = "insajderi" then some 3
  else if p = "gazeta-blic" then some 2
  else if p = "default" then some 1
  else none

/-- `getProviderScore` of `all-articles/services/duplicate-filter.ts`
(cache dropped): `PROVIDER_RANKINGS[provider] || PROVIDER_RANKINGS['default']`. -/
def getProviderScore (provider : String) : Nat :=
  jsOrNat (PROVIDER_RANKINGS provider) ((PROVIDER_RANKINGS "default").getD 0)

end AllArticles

/-- `PROVIDER_ORDER` of `optimized-filter.ts` / the `providerOrder` of
`getTenDailyArticles`: providers in priority order. -/
def PROVIDER_ORDER : List String :=
  ["Telegrafi", "Insajderi", "indeksonline", "gazeta-express", "botasot", "gazeta-blic"]

/-- `isDuplicateTitle` of `optimized-filter.ts`: `threshold === null || 0`
disables the check; otherwise the title collides when some selected title
passes the (re-inlined, identical) length pre-filter and reaches the
threshold — i.e. exactly the `similarTitles` per-pair test. -/
def isDuplicateTitle (title : String) (selectedTitles : List String)
    (threshold : ℚ) : Bool :=
  if threshold = 0 then false
  else selectedTitles.any (fun existingTitle => similarTitles title existingTitle threshold)

/-- Grouping `providerGroups[p]` (insertion order of the group = input order). -/
def providerGroup (articles : List Article) (p : String) : List Article :=
  articles.filter (fun a => a.publication_source == p)

/-- Insertion of one article into a list already sorted by parsed
`created_at` descending, before the first strictly older entry. -/
def insertByDateDesc (ts : String → Int) (a : Article) : List Article → List Article
  | [] => [a]
  | b :: rest =>
    if ts a.created_at > ts b.created_at then a :: b :: rest
    else b :: insertByDateDesc ts a rest

/-- The `providerGroups[provider].sort((a, b) => dateB - dateA)` step: a
stable sort (V8's `Array.prototype.sort` is stable) by parsed date
descending, embedded as stable insertion sort. -/
def sortByDateDesc (ts : String → Int) (l : List Article) : List Article :=
  l.foldr (insertByDateDesc ts) []

/-- A provider's group as `getOptimizedDailyArticlesV2` holds it after the
initial sorting pass: that provider's articles, most recent first. -/
def sortedProviderGroup (ts : String → Int) (articles : List Article)
    (p : String) : List Article :=
  sortByDateDesc ts (providerGroup articles p)

/-- Selection state `(result, selectedTitles, providerCounts)` of
`getOptimizedDailyArticlesV2`. -/
structure SelState where
  result : List Article
  selectedTitles : List String
  providerCounts : String → Nat

/-- Phase 1's inner loop over one provider's sorted articles: take the first
one that is not a duplicate of an already selected title (`break` on
success), or nothing if every candidate collides. -/
def findFirstNonDup (threshold : ℚ) (selectedTitles : List String) :
    List Article → Option Article
  | [] => none
  | a :: rest =>
    if isDuplicateTitle (getNormalizedTitle a.title) selectedTitles threshold then
      findFirstNonDup threshold selectedTitles rest
    else some a

/-- Phase 1 treatment of one provider: if a non-duplicate candidate exists,
push it and its normalized title and set this provider's count to 1. -/
def phase1Step (ts : String → Int) (threshold : ℚ) (articles : List Article)
    (st : SelState) (p : String) : SelState :=
  match findFirstNonDup threshold st.selectedTitles (sortedProviderGroup ts articles p) with
  | some a =>
    { result := st.result ++ [a]
      selectedTitles := st.selectedTitles ++ [getNormalizedTitle a.title]
      providerCounts := fun q => if q = p then 1 else st.providerCounts q }
  | none => st

/-- Phase 1 of `getOptimizedDailyArticlesV2`: one article per provider in
priority order, with duplicate checking. -/
def phase1 (ts : String → Int) (threshold : ℚ) (articles : List Article) : SelState :=
  PROVIDER_ORDER.foldl (phase1Step ts threshold articles) ⟨[], [], fun _ => 0⟩

/-- The `maxAdditional` record of phase 2 (`undefined` off the six known
keys). JS `avgPerProvider - 1` can be `-1` before `Math.max(1, ·)` /
`Math.min(·, 2)`; truncated `Nat` subtraction yields the same final values. -/
def maxAdditionalLookup (avgPerProvider : Nat) (p : String) : Option Nat :=
  if p = "Telegrafi" then some (max 2 avgPerProvider)
  else if p = "Insajderi" then some (max 1 (avgPerProvider - 1))
  else if p = "indeksonline" then some (max 1 (min (avgPerProvider - 1) 2))
  else if p = "gazeta-express" then some (max 1 (min (avgPerProvider - 1) 2))
  else if p = "botasot" then some (max 1 (min (avgPerProvider - 1) 2))
  else if p = "gazeta-blic" then some (max 1 (min (avgPerProvider - 1) 2))
  else none

/-- Phase 2's inner loop from index `currentCount` of a provider's sorted
group (passed as the dropped suffix): add non-duplicate articles while fewer
than `maxToAdd` have been added; returns the new result, titles, and the
number added. -/
def phase2AddLoop (threshold : ℚ) : List Article → Nat → List Article →
    List String → List Article × List String × Nat
  | [], _, res, sel => (res, sel, 0)
  | _, 0, res, sel => (res, sel, 0)
  | a :: rest, Nat.succ k, res, sel =>
    let nt := getNormalizedTitle a.title
    if isDuplicateTitle nt sel threshold then
      phase2AddLoop threshold rest (k + 1) res sel
    else
      let out := phase2AddLoop threshold rest k (res ++ [a]) (sel ++ [nt])
      (out.1, out.2.1, out.2.2 + 1)

/-- Phase 2 treatment of one provider (the `break` when no slots are left is
the `st.2 = 0` freeze). -/
def phase2Step (ts : String → Int) (threshold : ℚ) (articles : List Article)
    (avgPerProvider : Nat) (st : SelState × Nat) (p : String) : SelState × Nat :=
  if st.2 = 0 then st
  else
    let group := sortedProviderGroup ts articles p
    let currentCount := st.1.providerCounts p
    let maxForProvider := 1 + jsOrNat (maxAdditionalLookup avgPerProvider p) 1
    let availableArticles := group.length - currentCount
    if availableArticles > 0 then
      let maxToAdd := min (maxForProvider - currentCount) (min availableArticles st.2)
      let out := phase2AddLoop threshold (group.drop currentCount) maxToAdd
        st.1.result st.1.selectedTitles
      ({ result := out.1
         selectedTitles := out.2.1
         providerCounts := fun q => if q = p then currentCount + out.2.2
           else st.1.providerCounts q },
       st.2 - out.2.2)
    else st

/-- Phase 2 of `getOptimizedDailyArticlesV2`: fill remaining slots in
priority order under the dynamic per-provider caps.
`activeProviders.length` is the number of distinct providers in the pool
(every built group is non-empty); `Math.ceil` is `(a + b - 1) / b`. -/
def phase2 (ts : String → Int) (threshold : ℚ) (articles : List Article)
    (targetCount : Nat) (st1 : SelState) : SelState :=
  let remainingSlots := targetCount - st1.result.length
  if remainingSlots > 0 then
    let activeCount := (articles.map (fun a => a.publication_source)).dedup.length
    let avgPerProvider := (remainingSlots + max 1 activeCount - 1) / max 1 activeCount
    (PROVIDER_ORDER.foldl (phase2Step ts threshold articles avgPerProvider)
      (st1, remainingSlots)).1
  else st1

/-- Phase 3's loop over the unused articles: stop at `targetCount`; the last
two slots use the fixed relaxed threshold 0.95, earlier ones
`threshold + 0.05` (JS `targetCount - 2` below 0 and truncated `Nat`
subtraction agree: both make the comparison always true). -/
def phase3AddLoop (threshold : ℚ) (targetCount : Nat) : List Article →
    List Article → List String → List Article × List String
  | [], res, sel => (res, sel)
  | a :: rest, res, sel =>
    if res.length ≥ targetCount then (res, sel)
    else
      let nt := getNormalizedTitle a.title
      let relaxedThreshold : ℚ :=
        if res.length ≥ targetCount - 2 then 95/100 else threshold + 5/100
      if isDuplicateTitle nt sel relaxedThreshold then
        phase3AddLoop threshold targetCount rest res sel
      else
        phase3AddLoop threshold targetCount rest (res ++ [a]) (sel ++ [nt])

/-- Phase 3 of `getOptimizedDailyArticlesV2`: collect the not-yet-used
articles provider-group by provider-group, re-sort them by date, and add them
under the relaxed criteria. The `usedUrls` set is built once here. -/
def phase3 (ts : String → Int) (threshold : ℚ) (articles : List Article)
    (targetCount : Nat) (st : SelState) : SelState :=
  if st.result.length < targetCount then
    let usedUrls := st.result.map (fun a => a.url)
    let unusedArticles := (PROVIDER_ORDER.map (fun p =>
      (sortedProviderGroup ts articles p).filter
        (fun a => !usedUrls.contains a.url))).flatten
    let out := phase3AddLoop threshold targetCount (sortByDateDesc ts unusedArticles)
      st.result st.selectedTitles
    { st with result := out.1, selectedTitles := out.2 }
  else st

/-- The final safety loop: add any remaining articles (input order) with no
similarity check at all. The `usedUrls` set is built once at entry and — as
in the source — not extended while pushing. -/
def phase4AddLoop (targetCount : Nat) (usedUrls : List String) :
    List Article → List Article → List Article
  | [], res => res
  | a :: rest, res =>
    if res.length ≥ targetCount then res
    else if usedUrls.contains a.url then phase4AddLoop targetCount usedUrls rest res
    else phase4AddLoop targetCount usedUrls rest (res ++ [a])

/-- Final safety phase of `getOptimizedDailyArticlesV2`. -/
def phase4 (articles : List Article) (targetCount : Nat) (st : SelState) : SelState :=
  if st.result.length < targetCount then
    let usedUrls := st.result.map (fun a => a.url)
    { st with result := phase4AddLoop targetCount usedUrls articles st.result }
  else st

/-- `getOptimizedDailyArticlesV2` of
`daily-articles/services/optimized-filter.ts` (defaults in the source:
threshold 0.85, targetCount 10 — passed explicitly here). Pools no larger
than the target are returned as-is before any other processing. -/
def getOptimizedDailyArticlesV2 (ts : String → Int) (articles : List Article)
    (similarityThreshold : ℚ) (targetCount : Nat) : List Article :=
  if articles.length = 0 then []
  else if articles.length ≤ targetCount then articles
  else
    let st1 := phase1 ts similarityThreshold articles
    let st2 := phase2 ts similarityThreshold articles targetCount st1
    let st3 := phase3 ts similarityThreshold articles targetCount st2
    let st4 := phase4 articles targetCount st3
    st4.result.take targetCount

/-- Placeholder article backing the (in-range) indexed accesses of
`getTenDailyArticles`. -/
def emptyArticle : Article := ⟨"", "", "", ""⟩

/-- One pass of the `getTenDailyArticles` while-loop over the providers:
add `providerArticles[currentCount]` when the provider still has articles and
is below its cap (3 for Telegrafi, else 2); the Bool records whether the pass
added anything. -/
def getTenPass (group : String → List Article) :
    List String → List Article × (String → Nat) × Bool →
    List Article × (String → Nat) × Bool
  | [], st => st
  | p :: ps, (res, counts, added) =>
    if res.length ≥ 10 then (res, counts, added)
    else
      let availableArticles := group p
      let currentCount := counts p
      if availableArticles.length > currentCount then
        let maxForProvider := if p = "Telegrafi" then 3 else 2
        if currentCount < maxForProvider then
          getTenPass group ps
            (res ++ [availableArticles.getD currentCount emptyArticle],
             fun q => if q = p then currentCount + 1 else counts q, true)
        else getTenPass group ps (res, counts, added)
      else getTenPass group ps (res, counts, added)

/-- The `getTenDailyArticles` while-loop: repeat passes until 10 articles are
placed or a pass adds nothing. Every continuing pass adds at least one
article and the loop stops at 10, so `10 + 1` units of fuel always suffice
for the JS loop's behavior. -/
def getTenLoop (group : String → List Article) :
    Nat → List Article → (String → Nat) → List Article
  | 0, res, _ => res
  | fuel + 1, res, counts =>
    if res.length ≥ 10 then res
    else
      let out := getTenPass group PROVIDER_ORDER (res, counts, false)
      if out.2.2 then getTenLoop group fuel out.1 out.2.1 else out.1

/-- `getTenDailyArticles` of `daily-articles/services/duplicate-filter.ts`:
a mandatory pass giving each provider (with a non-empty group) its first
article — with no duplicate checking and no sorting — then priority-capped
passes until 10 slots are filled, and a final `slice(0, 10)`. -/
def getTenDailyArticles (articles : List Article) : List Article :=
  let group := fun p => providerGroup articles p
  let init := PROVIDER_ORDER.foldl
    (fun (st : List Article × (String → Nat)) p =>
      match group p with
      | [] => st
      | a :: _ => (st.1 ++ [a], fun q => if q = p then 1 else st.2 q))
    ([], fun _ => 0)
  (getTenLoop group (10 + 1) init.1 init.2).take 10

/-- The `lastProviders` check of `diversifyArticles`: when the history holds
at least `maxConsecutive = 2` entries and the last two coincide, that
provider must be avoided. -/
def lastTwoSame (lastProviders : List String) : Option String :=
  if lastProviders.length ≥ 2 then
    let lastProvider := lastProviders.getD (lastProviders.length - 1) ""
    let secondLastProvider := lastProviders.getD (lastProviders.length - 2) ""
    if lastProvider = secondLastProvider then some lastProvider else none
  else none

/-- Push onto the provider history, `shift`ing the oldest entry out beyond
`maxConsecutive = 2`. -/
def pushLast (lastProviders : List String) (s : String) : List String :=
  let l := lastProviders ++ [s]
  if l.length > 2 then l.tail else l

/-- The `splice` of the first remaining article from a different provider:
`some (b, rest)` removes exactly that article, keeping the order of the
others; `none` when every remaining article is from provider `p`
(`selectedIndex` then stays 0 in the source). -/
def extractFirstDiff (p : String) : List Article → Option (Article × List Article)
  | [] => none
  | a :: rest =>
    if a.publication_source ≠ p then some (a, rest)
    else
      match extractFirstDiff p rest with
      | some (b, rest2) => some (b, a :: rest2)
      | none => none

/-- The while-loop of `diversifyArticles`. Each iteration removes exactly one
article from `remaining`, so `remaining.length` fuel always suffices; on fuel
exhaustion the untouched remainder is returned. -/
def diversifyLoop : Nat → List Article → List String → List Article
  | 0, remaining, _ => remaining
  | _ + 1, [], _ => []
  | fuel + 1, a :: rest, lastProviders =>
    match lastTwoSame lastProviders with
    | some p =>
      match extractFirstDiff p (a :: rest) with
      | some (b, rest2) =>
        b :: diversifyLoop fuel rest2 (pushLast lastProviders b.publication_source)
      | none =>
        a :: diversifyLoop fuel rest (pushLast lastProviders a.publication_source)
    | none =>
      a :: diversifyLoop fuel rest (pushLast lastProviders a.publication_source)

/-- `diversifyArticles` of the smart-filter service: lists of at most 3
articles are returned unchanged; otherwise repeatedly place the next article,
swapping forward the first one from a different provider whenever the last
two placed share theirs. -/
def diversifyArticles (articles : List Article) : List Article :=
  if articles.length ≤ 3 then articles
  else diversifyLoop articles.length articles []

/-- Spec-side predicate (for stating the diversity bound): some 3 consecutive
articles share their `publication_source`. -/
def hasThreeConsecutiveSameProvider : List Article → Bool
  | a :: b :: c :: rest =>
    (a.publication_source == b.publication_source
      && b.publication_source == c.publication_source)
    || hasThreeConsecutiveSameProvider (b :: c :: rest)
  | _ => false

/-- Modelled from the spec (§4.4, Exact-count Phase 1), as the declarative
counterpart of `phase1`: walking the given providers in order with the
already-selected titles at hand, each provider contributes the first
candidate of its recency-sorted list that does not collide with an
already-selected title, and contributes nothing when every candidate
collides. `Phase1Rel ts t articles provs sel res` reads: starting from
selected titles `sel`, processing `provs` adds exactly the articles `res`. -/
inductive Phase1Rel (ts : String → Int) (threshold : ℚ) (articles : List Article) :
    List String → List String → List Article → Prop
  | nil (sel : List String) : Phase1Rel ts threshold articles [] sel []
  | skip (p : String) (ps : List String) (sel : List String) (res : List Article) :
      (sortedProviderGroup ts articles p).find?
        (fun a => !isDuplicateTitle (getNormalizedTitle a.title) sel threshold) = none →
      Phase1Rel ts threshold articles ps sel res →
      Phase1Rel ts threshold articles (p :: ps) sel res
  | pick (p : String) (ps : List String) (sel : List String) (a : Article)
      (res : List Article) :
      (sortedProviderGroup ts articles p).find?
        (fun a => !isDuplicateTitle (getNormalizedTitle a.title) sel threshold) = some a →
      Phase1Rel ts threshold articles ps (sel ++ [getNormalizedTitle a.title]) res →
      Phase1Rel ts threshold articles (p :: ps) sel (a :: res)

/-! ## Concrete example data -/

/-- A constant date parser for examples in which every tie-break is decided
by provider priority before the timestamp comparison is reached. -/
def tsZero : String → Int := fun _ => 0

/-- `⟨"ab", …⟩` from the lowest-priority provider. -/
def artAb : Article := ⟨"ab", "u1", "gazeta-blic", "d1"⟩

/-- `⟨"abcd", …⟩` from a low-priority provider. -/
def artAbcd : Article := ⟨"abcd", "u2", "botasot", "d2"⟩

/-- `⟨"abc", …⟩` from the top-priority provider. -/
def artAbc : Article := ⟨"abc", "u3", "Telegrafi", "d3"⟩

/-- Pool on which the accepted-then-replaced entry leaves two
mutually-similar titles in the dedup output: "ab" and "abcd" skip each other
through the length pre-filter, then "abc" (higher priority) replaces "ab"
in place without being re-checked against "abcd". -/
def exReplaceBug : List Article := [artAb, artAbcd, artAbc]

/-- Pool refuting threshold monotonicity of the output length. -/
def exMonotone : List Article :=
  [⟨"aaaab", "u0", "Telegrafi", "d0"⟩, ⟨"ab", "u1", "gazeta-blic", "d1"⟩,
   ⟨"abc", "u2", "botasot", "d2"⟩, ⟨"bcbca", "u3", "Insajderi", "d3"⟩]

/-- A row with a missing (empty) title. -/
def malformedArticle : Article := ⟨"", "u-bad", "Telegrafi", "d"⟩

/-- A single well-formed row. -/
def exSingle : Article := ⟨"t", "u", "Telegrafi", "d"⟩

/-- Two articles with identical titles from different providers. -/
def exTenA : Article := ⟨"x", "u1", "Telegrafi", "d1"⟩

/-- Second article of the identical-title pair. -/
def exTenB : Article := ⟨"x", "u2", "Insajderi", "d2"⟩

/-- A two-article pool with near-duplicate titles (equal after
normalization), below the default target count of 10. -/
def exSmallPool : List Article :=
  [⟨"Breaking news", "u1", "Telegrafi", "d1"⟩,
   ⟨"breaking news ", "u2", "Insajderi", "d2"⟩]

/-- Ten articles over three providers (3 Telegrafi, 3 Insajderi, 4 botasot),
ordered so that the diversity pass leaves a homogeneous botasot tail. -/
def exDiversify : List Article :=
  [⟨"t1", "u1", "Telegrafi", "d"⟩, ⟨"t2", "u2", "Insajderi", "d"⟩,
   ⟨"t3", "u3", "Telegrafi", "d"⟩, ⟨"t4", "u4", "Insajderi", "d"⟩,
   ⟨"t5", "u5", "Telegrafi", "d"⟩, ⟨"t6", "u6", "Insajderi", "d"⟩,
   ⟨"t7", "u7", "botasot", "d"⟩, ⟨"t8", "u8", "botasot", "d"⟩,
   ⟨"t9", "u9", "botasot", "d"⟩, ⟨"t10", "u10", "botasot", "d"⟩]

/-! ## Theorems settling the claims -/

/-- C1: the spec's core dedup post-condition fails on the code. On
`exReplaceBug` at the default threshold 0.85 the output of
`filterDuplicateArticles` contains both "abc" and "abcd", two titles that
pass the length pre-filter and whose Jaro-Winkler similarity 113/120 is at
least the threshold: the in-place replacement of an accepted entry is never
re-checked against the other accepted titles. -/
theorem c1_postcondition_failing_input :
    filterDuplicateArticles tsZero exReplaceBug (85/100) = Except.ok [artAbc, artAbcd]
    ∧ isObviouslyDifferent (getNormalizedTitle artAbc.title)
        (getNormalizedTitle artAbcd.title) = false
    ∧ jaroWinkler (getNormalizedTitle artAbc.title)
        (getNormalizedTitle artAbcd.title) ≥ 85/100 :=
  ⟨rfl, rfl, by decide⟩

/-- C4: dedupe is not idempotent. A second pass over the output of
`filterDuplicateArticles` on `exReplaceBug` at threshold 0.85 collapses the
two similar titles the first pass left behind. -/
theorem c4_idempotence_failing_input :
    filterDuplicateArticles tsZero exReplaceBug (85/100) = Except.ok [artAbc, artAbcd]
    ∧ filterDuplicateArticles tsZero [artAbc, artAbcd] (85/100) = Except.ok [artAbc]
    ∧ [artAbc] ≠ [artAbc, artAbcd] :=
  ⟨rfl, rfl, by decide⟩

/-- C5 counterexample: output length is not monotone in the threshold. On
`exMonotone`, the lower threshold 1/2 keeps 3 articles while the higher
threshold 11/20 keeps only 2. -/
theorem c5_threshold_monotonicity_counterexample :
    (1/2 : ℚ) < 11/20
    ∧ filterDuplicateArticles tsZero exMonotone (1/2) =
        Except.ok [⟨"aaaab", "u0", "Telegrafi", "d0"⟩, ⟨"ab", "u1", "gazeta-blic", "d1"⟩,
          ⟨"bcbca", "u3", "Insajderi", "d3"⟩]
    ∧ filterDuplicateArticles tsZero exMonotone (11/20) =
        Except.ok [⟨"aaaab", "u0", "Telegrafi", "d0"⟩, ⟨"bcbca", "u3", "Insajderi", "d3"⟩]
    ∧ ¬ ((3 : Nat) ≤ 2) :=
  ⟨by norm_num, rfl, rfl, by decide⟩

/-- C6 counterexample: in the `all-articles` ranking-table variant an
unrecognized provider gets the default priority 1, which is the lowest value
of that table (its values are 5, 4, 3, 2, and default 1), not the highest. -/
theorem c6_unknown_provider_counterexample :
    AllArticles.PROVIDER_RANKINGS "pika" = none
    ∧ AllArticles.getProviderScore "pika" = 1
    ∧ AllArticles.PROVIDER_RANKINGS "telegrafi" = some 5
    ∧ AllArticles.PROVIDER_RANKINGS "gazeta-express" = some 4
    ∧ AllArticles.PROVIDER_RANKINGS "insajderi" = some 3
    ∧ AllArticles.PROVIDER_RANKINGS "gazeta-blic" = some 2
    ∧ AllArticles.PROVIDER_RANKINGS "default" = some 1
    ∧ (1 : Nat) ≠ 5 := by
  refine ⟨rfl, rfl, rfl, rfl, rfl, rfl, rfl, by decide⟩

/-- C7 counterexample: a single-element input list is returned before the
malformed-row validation, so an article with an empty title survives. -/
theorem c7_singleton_malformed_counterexample :
    filterDuplicateArticles tsZero [malformedArticle] (85/100) =
      Except.ok [malformedArticle]
    ∧ ¬ WellFormed malformedArticle :=
  ⟨rfl, by decide⟩

/-- C8 counterexample: out-of-range thresholds are not rejected on empty and
single-element lists — those return before the validation. -/
theorem c8_threshold_check_counterexample :
    filterDuplicateArticles tsZero ([] : List Article) 5 = Except.ok []
    ∧ filterDuplicateArticles tsZero [exSingle] (-1) = Except.ok [exSingle]
    ∧ (5 : ℚ) > 1 ∧ (-1 : ℚ) < 0 :=
  ⟨rfl, rfl, by norm_num, by norm_num⟩

/-- C9 counterexample: with three distinct providers each contributing at
least 3 of the 10 articles, `diversifyArticles` still returns an order with
(four) consecutive same-provider items — the swap-forward cannot fix a
homogeneous tail. -/
theorem c9_diversity_bound_counterexample :
    diversifyArticles exDiversify = exDiversify
    ∧ hasThreeConsecutiveSameProvider (diversifyArticles exDiversify) = true
    ∧ (exDiversify.map Article.publication_source).dedup =
        ["Telegrafi", "Insajderi", "botasot"]
    ∧ (exDiversify.map Article.publication_source).count "Telegrafi" = 3
    ∧ (exDiversify.map Article.publication_source).count "Insajderi" = 3
    ∧ (exDiversify.map Article.publication_source).count "botasot" = 4 := by
  refine ⟨rfl, rfl, by decide, by decide, by decide, by decide⟩

/-- C3 counterexample: the mandatory first phase of `getTenDailyArticles`
performs no collision check: two articles with the identical title "x" from
two providers are both placed, although their titles collide at the default
threshold 0.85. -/
theorem c3_phase1_collision_counterexample :
    getTenDailyArticles [exTenA, exTenB] = [exTenA, exTenB]
    ∧ similarTitles (getNormalizedTitle exTenA.title)
        (getNormalizedTitle exTenB.title) (85/100) = true
    ∧ exTenA.publication_source ≠ exTenB.publication_source :=
  ⟨rfl, rfl, by decide⟩

/-- C10: pools no larger than the target count are returned unchanged by
`getOptimizedDailyArticlesV2` — no filtering, no dropping, no distribution. -/
theorem c10_small_pool_identity (ts : String → Int) (articles : List Article)
    (threshold : ℚ) (targetCount : Nat) (h : articles.length ≤ targetCount) :
    getOptimizedDailyArticlesV2 ts articles threshold targetCount = articles := by
  unfold getOptimizedDailyArticlesV2
  by_cases h0 : articles.length = 0
  · rw [if_pos h0, List.length_eq_zero.mp h0]
  · rw [if_neg h0, if_pos h]

/-- C10 witness: a pool of two near-duplicate titles below the target of 10
is returned exactly as given. -/
theorem c10_small_pool_identity_witness :
    exSmallPool.length ≤ 10
    ∧ getOptimizedDailyArticlesV2 tsZero exSmallPool (85/100) 10 = exSmallPool :=
  ⟨by decide, c10_small_pool_identity tsZero exSmallPool (85/100) 10 (by decide)⟩

/-- C6 amended: in the daily-articles ranking table a provider matching
neither verbatim nor lowercased gets the default priority 6, which bounds
every priority in that table. (The all-articles variant instead defaults to
1, its lowest value — see the counterexample.) -/
theorem c6_daily_default_highest (p : String)
    (h1 : PROVIDER_RANKINGS p = none)
    (h2 : PROVIDER_RANKINGS (jsToLowerCase p) = none) :
    getProviderScore p = 6 ∧ ∀ q n, PROVIDER_RANKINGS q = some n → n ≤ 6 := by
  refine ⟨by simp [getProviderScore, h1, h2, jsOrNat]; rfl, ?_⟩
  intro q n hq
  unfold PROVIDER_RANKINGS at hq
  split_ifs at hq <;> simp_all <;> omega

/-- C6 witness: the unknown provider "Pika News" gets the daily default 6. -/
theorem c6_daily_default_highest_witness :
    (PROVIDER_RANKINGS "Pika News" = none
      ∧ PROVIDER_RANKINGS (jsToLowerCase "Pika News") = none)
    ∧ (getProviderScore "Pika News" = 6
      ∧ ∀ q n, PROVIDER_RANKINGS q = some n → n ≤ 6) :=
  ⟨⟨by decide, by decide⟩,
    c6_daily_default_highest "Pika News" (by decide) (by decide)⟩

/-- C8 amended: `filterDuplicateArticles` reports the invalid-argument error
exactly when the threshold is outside [0, 1] and the list has at least two
elements; empty and single-element lists return before the validation. -/
theorem c8_error_iff_large_pool (ts : String → Int) (articles : List Article)
    (t : ℚ) :
    (∃ e, filterDuplicateArticles ts articles t = Except.error e) ↔
      2 ≤ articles.length ∧ (t < 0 ∨ 1 < t) := by
  unfold filterDuplicateArticles
  rcases articles with _ | ⟨a, _ | ⟨b, rest⟩⟩
  · simp
  · simp
  · by_cases ht : t < 0 ∨ t > 1
    · simp only [List.length_cons, if_neg (by omega : ¬ rest.length + 1 + 1 = 0),
        if_neg (by omega : ¬ rest.length + 1 + 1 = 1), if_pos ht]
      constructor
      · intro _; exact ⟨by omega, ht⟩
      · intro _; exact ⟨_, rfl⟩
    · simp only [List.length_cons, if_neg (by omega : ¬ rest.length + 1 + 1 = 0),
        if_neg (by omega : ¬ rest.length + 1 + 1 = 1), if_neg ht]
      constructor
      · rintro ⟨e, he⟩; exact absurd he (by simp)
      · rintro ⟨-, h⟩; exact absurd h ht

/-- Helper: a successful duplicate scan keeps only well-formed entries when
all stored entries were well-formed and the scanned article is. -/
theorem scanForDup_wellFormed (ts : String → Int) (t : ℚ) (article : Article)
    (ctitle : String) (acc acc' : List (Article × String))
    (hacc : ∀ p ∈ acc, WellFormed p.1) (ha : WellFormed article)
    (h : scanForDup ts t article ctitle acc = some acc') :
    ∀ p ∈ acc', WellFormed p.1 := by
  induction acc generalizing acc' with
  | nil => simp [scanForDup] at h
  | cons hd tl ih =>
    obtain ⟨a, aTitle⟩ := hd
    rw [scanForDup] at h
    by_cases hsim : similarTitles ctitle aTitle t
    · rw [if_pos hsim, Option.some_inj] at h
      subst h
      by_cases hbetter : selectBetterArticle ts article a = article
      · rw [if_pos hbetter]
        intro p hp
        rcases List.mem_cons.mp hp with h' | h'
        · rw [h']; exact ha
        · exact hacc p (List.mem_cons_of_mem _ h')
      · rw [if_neg hbetter]
        intro p hp
        rcases List.mem_cons.mp hp with h' | h'
        · rw [h']; exact hacc _ (List.mem_cons_self _ _)
        · exact hacc p (List.mem_cons_of_mem _ h')
    · rw [if_neg hsim] at h
      rcases Option.map_eq_some'.mp h with ⟨l, hl, rfl⟩
      intro p hp
      rcases List.mem_cons.mp hp with h' | h'
      · rw [h']; exact hacc _ (List.mem_cons_self _ _)
      · exact ih l (fun q hq => hacc q (List.mem_cons_of_mem _ hq)) hl p h'

/-- Helper: one dedup step keeps only well-formed entries. -/
theorem dedupeStep_wellFormed (ts : String → Int) (t : ℚ)
    (acc : List (Article × String)) (article : Article)
    (hacc : ∀ p ∈ acc, WellFormed p.1) :
    ∀ p ∈ dedupeStep ts t acc article, WellFormed p.1 := by
  unfold dedupeStep
  by_cases hskip : article.title = "" ∨ article.publication_source = ""
      ∨ article.created_at = ""
  · rw [if_pos hskip]; exact hacc
  · rw [if_neg hskip]
    have ha : WellFormed article := by
      unfold WellFormed; push_neg at hskip; exact hskip
    intro p hp
    rcases hscan : scanForDup ts t article (getNormalizedTitle article.title) acc with
      _ | acc'
    · rw [hscan] at hp
      rcases List.mem_append.mp hp with h' | h'
      · exact hacc p h'
      · rw [List.mem_singleton.mp h']; exact ha
    · rw [hscan] at hp
      exact scanForDup_wellFormed ts t article _ acc acc' hacc ha hscan p hp

/-- Helper: the whole dedup fold keeps only well-formed entries. -/
theorem foldl_dedupeStep_wellFormed (ts : String → Int) (t : ℚ)
    (articles : List Article) (acc : List (Article × String))
    (hacc : ∀ p ∈ acc, WellFormed p.1) :
    ∀ p ∈ articles.foldl (dedupeStep ts t) acc, WellFormed p.1 := by
  induction articles generalizing acc with
  | nil => exact hacc
  | cons a rest ih =>
    exact ih (dedupeStep ts t acc a) (dedupeStep_wellFormed ts t acc a hacc)

/-- C7 amended: for input lists that do not have exactly one element, every
item missing a title, provider or creation timestamp is silently dropped —
the result is ok (no error for an in-range threshold) and contains only
well-formed articles, so no malformed article ever appears in it. (A
single-element list is returned unchanged before the validation — see the
counterexample.) -/
theorem c7_malformed_dropped (ts : String → Int) (articles : List Article)
    (t : ℚ) (hlen : articles.length ≠ 1) (h0 : 0 ≤ t) (h1 : t ≤ 1) :
    ∃ res, filterDuplicateArticles ts articles t = Except.ok res
      ∧ (∀ a ∈ res, WellFormed a)
      ∧ (∀ a, ¬ WellFormed a → a ∉ res) := by
  unfold filterDuplicateArticles
  by_cases hz : articles.length = 0
  · exact ⟨[], by rw [if_pos hz], by simp, by simp⟩
  · rw [if_neg hz, if_neg hlen, if_neg (by push_neg; constructor <;> linarith)]
    refine ⟨_, rfl, ?_, ?_⟩
    · intro a ha
      rcases List.mem_map.mp ha with ⟨p, hp, rfl⟩
      exact foldl_dedupeStep_wellFormed ts t articles [] (by simp) p hp
    · intro a hnwf ha
      exact hnwf (by
        rcases List.mem_map.mp ha with ⟨p, hp, rfl⟩
        exact foldl_dedupeStep_wellFormed ts t articles [] (by simp) p hp)

/-- C7 witness: on a two-element list containing one malformed row, the
result is ok and consists of well-formed articles only. -/
theorem c7_malformed_dropped_witness :
    (([malformedArticle, exTenA] : List Article).length ≠ 1
      ∧ (0 : ℚ) ≤ 85/100 ∧ (85/100 : ℚ) ≤ 1)
    ∧ ∃ res, filterDuplicateArticles tsZero [malformedArticle, exTenA] (85/100) =
        Except.ok res
      ∧ (∀ a ∈ res, WellFormed a)
      ∧ (∀ a, ¬ WellFormed a → a ∉ res) :=
  ⟨⟨by decide, by decide, by decide⟩,
    c7_malformed_dropped tsZero [malformedArticle, exTenA] (85/100)
      (by decide) (by decide) (by decide)⟩

/-- Helper: the per-pair duplicate test is antitone in the threshold — a pair
similar at a higher threshold is similar at any lower one. -/
theorem similarTitles_mono (s e : String) (t1 t2 : ℚ) (h : t1 ≤ t2)
    (hs : similarTitles s e t2 = true) : similarTitles s e t1 = true := by
  unfold similarTitles at hs ⊢
  simp only [Bool.and_eq_true, decide_eq_true_eq] at hs ⊢
  exact ⟨hs.1, le_trans h hs.2⟩

/-- Helper: evaluation of the dedup filter on a two-element list with an
in-range threshold. -/
theorem filter_two_eval (ts : String → Int) (t : ℚ) (a b : Article)
    (hr : ¬ (t < 0 ∨ t > 1)) :
    filterDuplicateArticles ts [a, b] t =
      Except.ok ((dedupeStep ts t (dedupeStep ts t [] a) b).map Prod.fst) := by
  unfold filterDuplicateArticles
  rw [if_neg (by simp), if_neg (by simp), if_neg hr]
  rfl

/-- C5 amended: on pools of at most two articles the output length of
`filterDuplicateArticles` is monotone in the threshold (the per-pair merge
test is antitone in the threshold); for larger pools the monotonicity fails
(see the counterexample). -/
theorem c5_monotone_small_pools (ts : String → Int) (t1 t2 : ℚ)
    (articles : List Article) (hlen : articles.length ≤ 2)
    (h0 : 0 ≤ t1) (h12 : t1 < t2) (h1 : t2 ≤ 1) :
    ∃ r1 r2, filterDuplicateArticles ts articles t1 = Except.ok r1
      ∧ filterDuplicateArticles ts articles t2 = Except.ok r2
      ∧ r1.length ≤ r2.length := by
  have hr1 : ¬ (t1 < 0 ∨ t1 > 1) := by push_neg; constructor <;> linarith
  have hr2 : ¬ (t2 < 0 ∨ t2 > 1) := by push_neg; constructor <;> linarith
  rcases articles with _ | ⟨a, _ | ⟨b, _ | ⟨c, rest⟩⟩⟩
  · exact ⟨[], [], rfl, rfl, le_refl _⟩
  · exact ⟨[a], [a], rfl, rfl, le_refl _⟩
  · refine ⟨_, _, filter_two_eval ts t1 a b hr1, filter_two_eval ts t2 a b hr2, ?_⟩
    by_cases ga : a.title = "" ∨ a.publication_source = "" ∨ a.created_at = ""
    · have hstepa : ∀ t', dedupeStep ts t' [] a = [] := fun t' => by
        simp [dedupeStep, ga]
      rw [hstepa t1, hstepa t2]
      by_cases gb : b.title = "" ∨ b.publication_source = "" ∨ b.created_at = ""
      · have hstepb : ∀ t', dedupeStep ts t' [] b = [] := fun t' => by
          simp [dedupeStep, gb]
        rw [hstepb t1, hstepb t2]
      · have hstepb : ∀ t', dedupeStep ts t' [] b =
            [(b, getNormalizedTitle b.title)] := fun t' => by
          simp [dedupeStep, gb, scanForDup]
        rw [hstepb t1, hstepb t2]
    · have hstepa : ∀ t', dedupeStep ts t' [] a =
          [(a, getNormalizedTitle a.title)] := fun t' => by
        simp [dedupeStep, ga, scanForDup]
      rw [hstepa t1, hstepa t2]
      by_cases gb : b.title = "" ∨ b.publication_source = "" ∨ b.created_at = ""
      · have hstepb : ∀ t',
            dedupeStep ts t' [(a, getNormalizedTitle a.title)] b =
              [(a, getNormalizedTitle a.title)] := fun t' => by
          simp [dedupeStep, gb]
        rw [hstepb t1, hstepb t2]
      · have hstepb : ∀ t', (hs : similarTitles (getNormalizedTitle b.title)
              (getNormalizedTitle a.title) t' = true) →
            ∃ x, dedupeStep ts t' [(a, getNormalizedTitle a.title)] b = [x] := by
          intro t' hs
          simp only [dedupeStep, if_neg gb, scanForDup, if_pos hs]
          split <;> exact ⟨_, rfl⟩
        have hstepb' : ∀ t', (hs : similarTitles (getNormalizedTitle b.title)
              (getNormalizedTitle a.title) t' = false) →
            dedupeStep ts t' [(a, getNormalizedTitle a.title)] b =
              [(a, getNormalizedTitle a.title), (b, getNormalizedTitle b.title)] := by
          intro t' hs
          simp [dedupeStep, gb, scanForDup, hs]
        by_cases hs2 : similarTitles (getNormalizedTitle b.title)
            (getNormalizedTitle a.title) t2 = true
        · have hs1 := similarTitles_mono _ _ t1 t2 (le_of_lt h12) hs2
          obtain ⟨x1, hx1⟩ := hstepb t1 hs1
          obtain ⟨x2, hx2⟩ := hstepb t2 hs2
          rw [hx1, hx2]
          exact le_refl _
        · rw [hstepb' t2 (Bool.eq_false_iff.mpr hs2)]
          by_cases hs1 : similarTitles (getNormalizedTitle b.title)
              (getNormalizedTitle a.title) t1 = true
          · obtain ⟨x1, hx1⟩ := hstepb t1 hs1
            rw [hx1]; simp
          · rw [hstepb' t1 (Bool.eq_false_iff.mpr hs1)]
  · simp at hlen

/-- C5 witness for the amended small-pool statement: a concrete two-element
pool evaluated at thresholds 1/2 < 3/4. -/
theorem c5_monotone_small_pools_witness :
    (([artAb, artAbc] : List Article).length ≤ 2 ∧ (0 : ℚ) ≤ 1/2
      ∧ (1/2 : ℚ) < 3/4 ∧ (3/4 : ℚ) ≤ 1)
    ∧ ∃ r1 r2, filterDuplicateArticles tsZero [artAb, artAbc] (1/2) = Except.ok r1
      ∧ filterDuplicateArticles tsZero [artAb, artAbc] (3/4) = Except.ok r2
      ∧ r1.length ≤ r2.length :=
  ⟨⟨by decide, by decide, by decide, by decide⟩,
    c5_monotone_small_pools tsZero (1/2) (3/4) [artAb, artAbc]
      (by decide) (by decide) (by decide) (by decide)⟩

/-- Helper: a well-formed article is not caught by the malformed-row guard. -/
theorem WellFormed.not_guard {a : Article} (h : WellFormed a) :
    ¬ (a.title = "" ∨ a.publication_source = "" ∨ a.created_at = "") := by
  rcases h with ⟨h1, h2, h3⟩
  push_neg
  exact ⟨h1, h2, h3⟩

/-- Helper: a well-formed pair whose (normalized) titles pass the combined
similarity test collapses to the winner of `selectBetterArticle`. -/
theorem filter_pair_merge (ts : String → Int) (t : ℚ) (A B : Article)
    (hr : ¬ (t < 0 ∨ t > 1)) (hwA : WellFormed A) (hwB : WellFormed B)
    (hsim : similarTitles (getNormalizedTitle B.title)
      (getNormalizedTitle A.title) t = true) :
    filterDuplicateArticles ts [A, B] t =
      Except.ok [if selectBetterArticle ts B A = B then B else A] := by
  rw [filter_two_eval ts t A B hr]
  have hA : dedupeStep ts t [] A = [(A, getNormalizedTitle A.title)] := by
    simp [dedupeStep, hwA.not_guard, scanForDup]
  rw [hA]
  have hB : dedupeStep ts t [(A, getNormalizedTitle A.title)] B =
      if selectBetterArticle ts B A = B then [(B, getNormalizedTitle B.title)]
      else [(A, getNormalizedTitle A.title)] := by
    simp only [dedupeStep, if_neg hwB.not_guard, scanForDup, if_pos hsim]
  rw [hB]
  split <;> rfl

/-- C2: a similar two-article pool keeps exactly one survivor; a strictly
higher provider priority wins regardless of input order, and on equal
priorities the strictly later (`ts`-parsed) `created_at` wins regardless of
input order. -/
theorem c2_tiebreak_priority_then_recency (ts : String → Int) (t : ℚ)
    (X Y : Article) (h0 : 0 ≤ t) (h1 : t ≤ 1)
    (hwX : WellFormed X) (hwY : WellFormed Y)
    (hsim1 : similarTitles (getNormalizedTitle X.title)
      (getNormalizedTitle Y.title) t = true)
    (hsim2 : similarTitles (getNormalizedTitle Y.title)
      (getNormalizedTitle X.title) t = true) :
    (∃ Z, filterDuplicateArticles ts [X, Y] t = Except.ok [Z])
    ∧ (getProviderScore X.publication_source >
          getProviderScore Y.publication_source →
        filterDuplicateArticles ts [X, Y] t = Except.ok [X]
        ∧ filterDuplicateArticles ts [Y, X] t = Except.ok [X])
    ∧ (getProviderScore X.publication_source =
          getProviderScore Y.publication_source →
        ts X.created_at > ts Y.created_at →
        filterDuplicateArticles ts [X, Y] t = Except.ok [X]
        ∧ filterDuplicateArticles ts [Y, X] t = Except.ok [X]) := by
  have hr : ¬ (t < 0 ∨ t > 1) := by push_neg; constructor <;> linarith
  have eXY := filter_pair_merge ts t X Y hr hwX hwY hsim2
  have eYX := filter_pair_merge ts t Y X hr hwY hwX hsim1
  refine ⟨?_, ?_, ?_⟩
  · rw [eXY]
    split
    · exact ⟨Y, rfl⟩
    · exact ⟨X, rfl⟩
  · intro hScore
    have hsbXY : selectBetterArticle ts Y X = X := by
      unfold selectBetterArticle
      rw [if_pos (ne_of_lt hScore), if_neg (lt_asymm hScore)]
    have hsbYX : selectBetterArticle ts X Y = X := by
      unfold selectBetterArticle
      rw [if_pos (Ne.symm (ne_of_lt hScore)), if_pos hScore]
    have hne : ¬ (X = Y) := by
      intro h
      rw [h] at hScore
      exact lt_irrefl _ hScore
    constructor
    · rw [eXY, if_neg (by rw [hsbXY]; exact hne)]
    · rw [eYX, if_pos hsbYX]
  · intro hScore hts
    have hsbXY : selectBetterArticle ts Y X = X := by
      unfold selectBetterArticle
      rw [if_neg (by rw [hScore]; exact fun h => h rfl), if_neg (lt_asymm hts)]
    have hsbYX : selectBetterArticle ts X Y = X := by
      unfold selectBetterArticle
      rw [if_neg (by rw [hScore]; exact fun h => h rfl), if_pos hts]
    have hne : ¬ (X = Y) := by
      intro h
      rw [h] at hts
      exact lt_irrefl _ hts
    constructor
    · rw [eXY, if_neg (by rw [hsbXY]; exact hne)]
    · rw [eYX, if_pos hsbYX]

set_option maxRecDepth 16384 in
/-- C2 witness: the spec's concrete scenario — "Qeveria aprovon buxhetin"
(Telegrafi, earlier) against "Qeveria miraton buxhetin" (Insajderi, later)
at threshold 0.85: the Telegrafi article survives in both input orders. -/
theorem c2_tiebreak_priority_then_recency_witness :
    ((0 : ℚ) ≤ 85/100 ∧ (85/100 : ℚ) ≤ 1
      ∧ WellFormed ⟨"Qeveria aprovon buxhetin", "u1", "Telegrafi", "t0"⟩
      ∧ WellFormed ⟨"Qeveria miraton buxhetin", "u2", "Insajderi", "t1"⟩
      ∧ similarTitles
          (getNormalizedTitle "Qeveria aprovon buxhetin")
          (getNormalizedTitle "Qeveria miraton buxhetin") (85/100) = true
      ∧ similarTitles
          (getNormalizedTitle "Qeveria miraton buxhetin")
          (getNormalizedTitle "Qeveria aprovon buxhetin") (85/100) = true
      ∧ getProviderScore "Telegrafi" > getProviderScore "Insajderi")
    ∧ ((∃ Z, filterDuplicateArticles tsZero
          [⟨"Qeveria aprovon buxhetin", "u1", "Telegrafi", "t0"⟩,
           ⟨"Qeveria miraton buxhetin", "u2", "Insajderi", "t1"⟩] (85/100) =
          Except.ok [Z])
      ∧ (getProviderScore "Telegrafi" > getProviderScore "Insajderi" →
          filterDuplicateArticles tsZero
            [⟨"Qeveria aprovon buxhetin", "u1", "Telegrafi", "t0"⟩,
             ⟨"Qeveria miraton buxhetin", "u2", "Insajderi", "t1"⟩] (85/100) =
            Except.ok [⟨"Qeveria aprovon buxhetin", "u1", "Telegrafi", "t0"⟩]
          ∧ filterDuplicateArticles tsZero
            [⟨"Qeveria miraton buxhetin", "u2", "Insajderi", "t1"⟩,
             ⟨"Qeveria aprovon buxhetin", "u1", "Telegrafi", "t0"⟩] (85/100) =
            Except.ok [⟨"Qeveria aprovon buxhetin", "u1", "Telegrafi", "t0"⟩])
      ∧ (getProviderScore "Telegrafi" = getProviderScore "Insajderi" →
          tsZero "t0" > tsZero "t1" →
          filterDuplicateArticles tsZero
            [⟨"Qeveria aprovon buxhetin", "u1", "Telegrafi", "t0"⟩,
             ⟨"Qeveria miraton buxhetin", "u2", "Insajderi", "t1"⟩] (85/100) =
            Except.ok [⟨"Qeveria aprovon buxhetin", "u1", "Telegrafi", "t0"⟩]
          ∧ filterDuplicateArticles tsZero
            [⟨"Qeveria miraton buxhetin", "u2", "Insajderi", "t1"⟩,
             ⟨"Qeveria aprovon buxhetin", "u1", "Telegrafi", "t0"⟩] (85/100) =
            Except.ok [⟨"Qeveria aprovon buxhetin", "u1", "Telegrafi", "t0"⟩])) :=
  ⟨⟨by decide, by decide, by decide, by decide, by decide, by decide, by decide⟩,
    c2_tiebreak_priority_then_recency tsZero (85/100)
      ⟨"Qeveria aprovon buxhetin", "u1", "Telegrafi", "t0"⟩
      ⟨"Qeveria miraton buxhetin", "u2", "Insajderi", "t1"⟩
      (by decide) (by decide) (by decide) (by decide) (by decide) (by decide)⟩

/-- Helper: the break-on-first-hit loop of Phase 1 is `List.find?` of the
non-duplicate predicate. -/
theorem findFirstNonDup_eq_find (t : ℚ) (sel : List String) (l : List Article) :
    findFirstNonDup t sel l =
      l.find? (fun a => !isDuplicateTitle (getNormalizedTitle a.title) sel t) := by
  induction l with
  | nil => rfl
  | cons a rest ih =>
    rw [findFirstNonDup, List.find?]
    by_cases h : isDuplicateTitle (getNormalizedTitle a.title) sel t
    · simp [h, ih]
    · simp [h]

/-- Helper: insertion keeps the same elements (as a permutation). -/
theorem insertByDateDesc_perm (ts : String → Int) (x : Article) (l : List Article) :
    (insertByDateDesc ts x l).Perm (x :: l) := by
  induction l with
  | nil => exact List.Perm.refl _
  | cons b rest ih =>
    rw [insertByDateDesc]
    split
    · exact List.Perm.refl _
    · exact (ih.cons b).trans (List.Perm.swap x b rest)

/-- Helper: the date sort is a permutation. -/
theorem sortByDateDesc_perm (ts : String → Int) (l : List Article) :
    (sortByDateDesc ts l).Perm l := by
  induction l with
  | nil => exact List.Perm.refl _
  | cons a rest ih =>
    unfold sortByDateDesc at ih ⊢
    rw [List.foldr_cons]
    exact (insertByDateDesc_perm ts a _).trans (ih.cons a)

/-- Helper: an article of a provider's sorted group carries that provider. -/
theorem sortedProviderGroup_provider (ts : String → Int) (articles : List Article)
    (p : String) (a : Article) (h : a ∈ sortedProviderGroup ts articles p) :
    a.publication_source = p := by
  unfold sortedProviderGroup at h
  have h2 : a ∈ providerGroup articles p :=
    ((sortByDateDesc_perm ts _).mem_iff).mp h
  unfold providerGroup at h2
  have := List.of_mem_filter h2
  exact beq_iff_eq.mp this

/-- Helper: the Phase 1 fold realizes the spec-side `Phase1Rel` from any
start state, appending a block of selections whose providers form a
sublist of the processed provider list. -/
theorem phase1_foldl_rel (ts : String → Int) (t : ℚ) (articles : List Article) :
    ∀ (provs : List String) (st : SelState),
      ∃ suffix, (provs.foldl (phase1Step ts t articles) st).result =
          st.result ++ suffix
        ∧ Phase1Rel ts t articles provs st.selectedTitles suffix
        ∧ (suffix.map (fun a => a.publication_source)).Sublist provs := by
  intro provs
  induction provs with
  | nil =>
    intro st
    exact ⟨[], by simp, Phase1Rel.nil _, by simp⟩
  | cons p ps ih =>
    intro st
    rw [List.foldl_cons]
    rcases hfind : findFirstNonDup t st.selectedTitles
        (sortedProviderGroup ts articles p) with _ | a
    · have hstep : phase1Step ts t articles st p = st := by
        unfold phase1Step
        rw [hfind]
      rw [hstep]
      obtain ⟨suffix, h1, h2, h3⟩ := ih st
      refine ⟨suffix, h1, Phase1Rel.skip p ps _ _ ?_ h2, h3.cons p⟩
      rw [← findFirstNonDup_eq_find]
      exact hfind
    · have hstep : phase1Step ts t articles st p =
          { result := st.result ++ [a]
            selectedTitles := st.selectedTitles ++ [getNormalizedTitle a.title]
            providerCounts := fun q => if q = p then 1 else st.providerCounts q } := by
        unfold phase1Step
        rw [hfind]
      rw [hstep]
      obtain ⟨suffix, h1, h2, h3⟩ := ih
        { result := st.result ++ [a]
          selectedTitles := st.selectedTitles ++ [getNormalizedTitle a.title]
          providerCounts := fun q => if q = p then 1 else st.providerCounts q }
      have hmem : a ∈ sortedProviderGroup ts articles p := by
        rw [findFirstNonDup_eq_find] at hfind
        exact List.mem_of_find?_eq_some hfind
      have hps : a.publication_source = p :=
        sortedProviderGroup_provider ts articles p a hmem
      refine ⟨a :: suffix, ?_, Phase1Rel.pick p ps _ a _ ?_ h2, ?_⟩
      · rw [h1]
        simp
      · rw [← findFirstNonDup_eq_find]
        exact hfind
      · rw [List.map_cons, hps]
        exact h3.cons₂ p

/-- C3 amended: Phase 1 of `getOptimizedDailyArticlesV2` satisfies the
spec-side description: walking the known providers in priority order, each
provider contributes the first candidate of its recency-sorted list that
does not collide with an already-selected title (and is skipped when every
candidate collides, so no colliding title is ever placed); consequently the
selected providers appear in priority order, at most one slot each.
(`getTenDailyArticles`, the other Exact-count implementation, violates the
claim — see the counterexample.) -/
theorem c3_phase1_spec_v2 (ts : String → Int) (t : ℚ) (articles : List Article) :
    Phase1Rel ts t articles PROVIDER_ORDER [] (phase1 ts t articles).result
    ∧ ((phase1 ts t articles).result.map
        (fun a => a.publication_source)).Sublist PROVIDER_ORDER := by
  obtain ⟨suffix, h1, h2, h3⟩ :=
    phase1_foldl_rel ts t articles PROVIDER_ORDER ⟨[], [], fun _ => 0⟩
  unfold phase1
  simp only [List.nil_append] at h1
  rw [h1]
  exact ⟨h2, h3⟩

/-- Helper: the splice of the first different-provider article is a
permutation: the extracted article plus the remainder are the input. -/
theorem extractFirstDiff_perm (p : String) (l : List Article) (b : Article)
    (rest : List Article) (h : extractFirstDiff p l = some (b, rest)) :
    l.Perm (b :: rest) := by
  induction l generalizing b rest with
  | nil => simp [extractFirstDiff] at h
  | cons a tl ih =>
    rw [extractFirstDiff] at h
    by_cases hp : a.publication_source ≠ p
    · rw [if_pos hp, Option.some_inj] at h
      cases h
      exact List.Perm.refl _
    · rw [if_neg hp] at h
      rcases hrec : extractFirstDiff p tl with _ | ⟨b', rest2⟩
      · rw [hrec] at h
        exact absurd h (by simp)
      · rw [hrec, Option.some_inj] at h
        cases h
        exact ((ih b rest2 hrec).cons a).trans (List.Perm.swap b a rest2)

/-- Helper: every round of the diversify loop is a permutation of the
remaining articles, for every amount of fuel and provider history. -/
theorem diversifyLoop_perm (fuel : Nat) :
    ∀ (remaining : List Article) (lastProviders : List String),
      (diversifyLoop fuel remaining lastProviders).Perm remaining := by
  induction fuel with
  | zero =>
    intro remaining lastProviders
    exact List.Perm.refl _
  | succ n ih =>
    intro remaining lastProviders
    rcases remaining with _ | ⟨a, rest⟩
    · exact List.Perm.refl _
    · rw [diversifyLoop]
      split
      next p h2 =>
        split
        next b rest2 hext =>
          exact ((ih rest2 _).cons b).trans
            (extractFirstDiff_perm p (a :: rest) b rest2 hext).symm
        next hext =>
          exact (ih rest _).cons a
      next h2 =>
        exact (ih rest _).cons a

/-- C9 amended: `diversifyArticles` always returns a permutation of its
input — no article is dropped and none is duplicated. (The no-3-consecutive
diversity bound of the claim does not hold in general, even with three
well-stocked providers — see the counterexample.) -/
theorem c9_diversify_perm (articles : List Article) :
    (diversifyArticles articles).Perm articles := by
  unfold diversifyArticles
  split
  · exact List.Perm.refl _
  · exact diversifyLoop_perm articles.length articles []
